import Mathlib

/-!
Shallow embedding of the AI-safety command-center event pipeline:
the anomaly-detection engine (detector rules and the classifier
`analyzeMessage`) and the incident manager (`handleRequest`,
`handleResponse`, `publishAnomaly`, `closeIncident`, `getSafetyMetrics`).

Numbers are modelled as `ℚ` (JavaScript numbers, away from float edge
cases); optional fields as `Option`; stateful module-level data is passed
explicitly.  JavaScript truthiness on numbers is `≠ 0`, on strings `≠ ""`.
-/

namespace SafetyCenter

/-- Severity levels of findings and incidents ('low' | 'medium' | 'high' | 'critical'). -/
inductive Severity
| low
| medium
| high
| critical
deriving DecidableEq, Repr

/-- The finding / anomaly types produced by `analyzeMessage`. -/
inductive AnomalyType
| PII_IN_REQUEST
| PII_LEAKAGE
| TOXIC_CONTENT
| PROMPT_INJECTION
| TOKEN_ANOMALY
| COST_ANOMALY
| PERFORMANCE_DEGRADATION
| HALLUCINATION
| ERROR_SPIKE
deriving DecidableEq, Repr

/-- The PII categories of `PII_PATTERNS` (EMAIL, PHONE, SSN, CREDIT_CARD, API_KEY). -/
inductive PIICat
| EMAIL
| PHONE
| SSN
| CREDIT_CARD
| API_KEY
deriving DecidableEq, Repr

/-- One entry of the list returned by `detectPII`: a PII category and the
number of matches of its pattern (`text.match(...).length`). -/
structure PIIHit where
  type : PIICat
  count : ℕ
deriving DecidableEq, Repr

/-- Tag identifying which `return` site (its distinct `reason` /
`description` string in the source) produced a finding. -/
inductive ReasonTag
| piiInRequest
| piiLeakage
| toxic
| injection
| tokenHigh
| tokenMedium
| costThreshold
| costSpike
| latTimeout
| latHigh
| latElevated
| lowConfidence
| contradictory
| errorRate
deriving DecidableEq, Repr

/-- A finding (anomaly) as pushed onto the `anomalies` array by
`analyzeMessage`: its `type`, its `severity`, the reason-string tag, and
the `detailedPII` evidence (nonempty only for the two PII findings). -/
structure Finding where
  type : AnomalyType
  severity : Severity
  tag : ReasonTag
  detailedPII : List PIIHit
deriving DecidableEq, Repr

/-- Abstract semantics of one global (`/g`) regex: for each input string,
the list of (start, stop) positions of the matches the engine finds when
scanning from offset 0 (in order, non-overlapping).  The concrete PII
regexes of the source are opaque here; only this pure match semantics and
the `lastIndex` protocol below matter to the claims. -/
structure GRegex where
  matchesOf : String → List (ℕ × ℕ)

/-- The module-level mutable `lastIndex` fields of the five global
`PII_PATTERNS` regexes. -/
structure PiiState where
  email : ℕ
  phone : ℕ
  ssn : ℕ
  card : ℕ
  apikey : ℕ
deriving DecidableEq, Repr

/-- All five `lastIndex` fields zero: the state of the regexes when the
module is first loaded. -/
def piiZero : PiiState := ⟨0, 0, 0, 0, 0⟩

/-- Embedding of `regex.test(text)` for a `/g` regex: search from `lastIndex`; on a hit
return `true` and set `lastIndex` past the match, on a miss return `false`
and reset `lastIndex` to 0. -/
def testG (r : GRegex) (lastIndex : ℕ) (t : String) : Bool × ℕ :=
  match (r.matchesOf t).find? (fun m => decide (lastIndex ≤ m.1)) with
  | some m => (true, m.2)
  | none => (false, 0)

/-- One branch of `detectPII`: `if (P.test(text)) detected.push({ type,
count: (text.match(P) || []).length })`.  `String.match` with a global
regex scans the whole string and leaves `lastIndex` at 0. -/
def piiBranch (r : GRegex) (lastIndex : ℕ) (t : String) (cat : PIICat) :
    Option PIIHit × ℕ :=
  let tr := testG r lastIndex t
  if tr.1 then (some ⟨cat, (r.matchesOf t).length⟩, 0) else (none, tr.2)

/-- The fixed pattern set of the detector module: the five global PII
regexes and the (stateless, no-`/g`) prompt-injection test. -/
structure Patterns where
  email : GRegex
  phone : GRegex
  ssn : GRegex
  card : GRegex
  apikey : GRegex
  injectionTest : String → Bool

/-- Embedding of `detectPII(text)`: early-returns `[]` on a falsy text, otherwise runs
the five pattern branches in order, threading each regex's `lastIndex`. -/
def detectPII (P : Patterns) (s : PiiState) (t : String) :
    List PIIHit × PiiState :=
  if t = "" then ([], s)
  else
    let e := piiBranch P.email s.email t PIICat.EMAIL
    let ph := piiBranch P.phone s.phone t PIICat.PHONE
    let sn := piiBranch P.ssn s.ssn t PIICat.SSN
    let cc := piiBranch P.card s.card t PIICat.CREDIT_CARD
    let ak := piiBranch P.apikey s.apikey t PIICat.API_KEY
    (([e.1, ph.1, sn.1, cc.1, ak.1].filterMap id),
      ⟨e.2, ph.2, sn.2, cc.2, ak.2⟩)

/-- The fixed `TOXIC_KEYWORDS` list. -/
def TOXIC_KEYWORDS : List String :=
  ["hate", "kill", "harm", "violence", "abuse", "racist", "sexist",
   "slur", "threat", "terror", "bomb", "poison", "explicit content"]

/-- Case-sensitive substring containment, `text.includes(key)`. -/
def containsSub (t k : String) : Bool :=
  decide (List.IsInfix k.toList t.toList)

/-- Embedding of `text.toLowerCase()` (ASCII approximation). -/
def strLower (s : String) : String := String.map Char.toLower s

/-- Embedding of `detectToxicContent(text)`: falsy text → false; otherwise some fixed
keyword occurs in the lower-cased text. -/
def detectToxicContent (t : String) : Bool :=
  if t = "" then false
  else TOXIC_KEYWORDS.any (fun k => containsSub (strLower t) k)

/-- Embedding of `detectPromptInjection(text)`: falsy text → false; otherwise some
`INJECTION_PATTERNS` regex (no `/g` flag, hence stateless) matches. -/
def detectPromptInjection (P : Patterns) (t : String) : Bool :=
  if t = "" then false else P.injectionTest t

/-- Result of `analyzeTokenUsage`, one constructor per return site.  The
`highUsage` return carries NO `severity` field in the source. -/
inductive TokenResult
| noBaseline
| highUsage
| mediumUsage
| ok
deriving DecidableEq, Repr

/-- Embedding of `analyzeTokenUsage(currentTokens, averageTokens)`: baseline falsy (0)
suppresses; relative increase `> 2` and `> 1.5` trigger. -/
def analyzeTokenUsage (currentTokens averageTokens : ℚ) : TokenResult :=
  if averageTokens = 0 then TokenResult.noBaseline
  else if (currentTokens - averageTokens) / averageTokens > 2 then
    TokenResult.highUsage
  else if (currentTokens - averageTokens) / averageTokens > 3 / 2 then
    TokenResult.mediumUsage
  else TokenResult.ok

/-- Result of `analyzeCostAnomaly`, one constructor per return site. -/
inductive CostResult
| noBaseline
| exceedsThreshold
| spike
| ok
deriving DecidableEq, Repr

/-- Embedding of `analyzeCostAnomaly(currentCost, avgCost, costThreshold = 50)`: the
`!avgCost` guard comes FIRST, so a falsy (zero) baseline suppresses both
triggers; then the absolute ceiling, then the `> 3` relative spike. -/
def analyzeCostAnomaly (currentCost avgCost costThreshold : ℚ) : CostResult :=
  if avgCost = 0 then CostResult.noBaseline
  else if currentCost > costThreshold then CostResult.exceedsThreshold
  else if (currentCost - avgCost) / avgCost > 3 then CostResult.spike
  else CostResult.ok

/-- Result of `analyzeLatencyAnomaly`, one constructor per return site.
Only the `elevated` return carries a `severity` ('medium') field. -/
inductive LatResult
| noBaseline
| timeout
| bigIncrease
| elevated
| ok
deriving DecidableEq, Repr

/-- Embedding of `analyzeLatencyAnomaly(latencyMs, avgLatencyMs)`: falsy baseline
suppresses; then `latencyMs > 30000` (timeout), then relative increase
`(latencyMs - avg) / avg` compared with `2.5` and `1.5`. -/
def analyzeLatencyAnomaly (latencyMs avgLatencyMs : ℚ) : LatResult :=
  if avgLatencyMs = 0 then LatResult.noBaseline
  else if latencyMs > 30000 then LatResult.timeout
  else if (latencyMs - avgLatencyMs) / avgLatencyMs > 5 / 2 then
    LatResult.bigIncrease
  else if (latencyMs - avgLatencyMs) / avgLatencyMs > 3 / 2 then
    LatResult.elevated
  else LatResult.ok

/-- Result of `detectHallucination`, one constructor per return site. -/
inductive HallucResult
| lowConfidence
| contradictory
| ok
deriving DecidableEq, Repr

/-- Embedding of `detectHallucination(response, confidenceScore)`: falsy response → no
anomaly; `confidenceScore < 0.3` → low-confidence; both the uncertainty
phrase and the assertive phrase present → contradictory. -/
def detectHallucination (response : String) (confidenceScore : ℚ) :
    HallucResult :=
  if response = "" then HallucResult.ok
  else if confidenceScore < 3 / 10 then HallucResult.lowConfidence
  else if containsSub response "I am not sure" &&
      containsSub response "The answer is" then HallucResult.contradictory
  else HallucResult.ok

/-- Embedding of `analyzeErrorPattern(errorCount)`: anomaly iff `errorCount > 10`. -/
def analyzeErrorPattern (errorCount : ℚ) : Bool :=
  decide (errorCount > 10)

/-- The input object of `analyzeMessage`: optional fields are `Option`,
matching `!== undefined` checks in the source. -/
structure Message where
  prompt : Option String
  response : Option String
  tokenCount : Option ℚ
  avgTokenCount : Option ℚ
  cost : Option ℚ
  avgCost : Option ℚ
  latencyMs : Option ℚ
  avgLatencyMs : Option ℚ
  confidenceScore : Option ℚ
  errorCount : Option ℚ

/-- JavaScript truthiness of an optional string (defined and nonempty). -/
def truthyStr (o : Option String) : Bool :=
  decide (o.getD "" ≠ "")

/-- Source region `if (piiInRequest.length > 0) anomalies.push(...)`. -/
def piiRequestBlock (hits : List PIIHit) : List Finding :=
  if hits ≠ [] then
    [⟨AnomalyType.PII_IN_REQUEST, Severity.critical, ReasonTag.piiInRequest, hits⟩]
  else []

/-- Source region `if (piiInResponse.length > 0) anomalies.push(...)`. -/
def piiLeakBlock (hits : List PIIHit) : List Finding :=
  if hits ≠ [] then
    [⟨AnomalyType.PII_LEAKAGE, Severity.critical, ReasonTag.piiLeakage, hits⟩]
  else []

/-- Source region `if (message.response && detectToxicContent(...))`. -/
def toxicBlock (response : Option String) : List Finding :=
  if truthyStr response && detectToxicContent (response.getD "") then
    [⟨AnomalyType.TOXIC_CONTENT, Severity.high, ReasonTag.toxic, []⟩]
  else []

/-- Source region `if (message.prompt && detectPromptInjection(...))`. -/
def injectionBlock (P : Patterns) (prompt : Option String) : List Finding :=
  if truthyStr prompt && detectPromptInjection P (prompt.getD "") then
    [⟨AnomalyType.PROMPT_INJECTION, Severity.critical, ReasonTag.injection, []⟩]
  else []

/-- Token-usage region of `analyzeMessage`: runs only when both
`tokenCount` and `avgTokenCount` are defined; the finding's severity is
`tokenAnomaly.severity || 'medium'`, and the high-usage return site of
`analyzeTokenUsage` carries no severity field, so BOTH trigger tiers end
up at severity 'medium'. -/
def tokenBlock (tokenCount avgTokenCount : Option ℚ) : List Finding :=
  match tokenCount, avgTokenCount with
  | some c, some a =>
    match analyzeTokenUsage c a with
    | TokenResult.highUsage =>
      [⟨AnomalyType.TOKEN_ANOMALY, Severity.medium, ReasonTag.tokenHigh, []⟩]
    | TokenResult.mediumUsage =>
      [⟨AnomalyType.TOKEN_ANOMALY, Severity.medium, ReasonTag.tokenMedium, []⟩]
    | _ => []
  | _, _ => []

/-- Cost region of `analyzeMessage`: runs only when both `cost` and
`avgCost` are defined; severity is the hard-coded 'high'. -/
def costBlock (cost avgCost : Option ℚ) : List Finding :=
  match cost, avgCost with
  | some c, some a =>
    match analyzeCostAnomaly c a 50 with
    | CostResult.exceedsThreshold =>
      [⟨AnomalyType.COST_ANOMALY, Severity.high, ReasonTag.costThreshold, []⟩]
    | CostResult.spike =>
      [⟨AnomalyType.COST_ANOMALY, Severity.high, ReasonTag.costSpike, []⟩]
    | _ => []
  | _, _ => []

/-- Latency region of `analyzeMessage`: runs only when both `latencyMs`
and `avgLatencyMs` are defined; severity is `latencyAnomaly.severity ||
'high'` (only the elevated tier carries 'medium'). -/
def latencyBlock (latencyMs avgLatencyMs : Option ℚ) : List Finding :=
  match latencyMs, avgLatencyMs with
  | some l, some a =>
    match analyzeLatencyAnomaly l a with
    | LatResult.timeout =>
      [⟨AnomalyType.PERFORMANCE_DEGRADATION, Severity.high, ReasonTag.latTimeout, []⟩]
    | LatResult.bigIncrease =>
      [⟨AnomalyType.PERFORMANCE_DEGRADATION, Severity.high, ReasonTag.latHigh, []⟩]
    | LatResult.elevated =>
      [⟨AnomalyType.PERFORMANCE_DEGRADATION, Severity.medium, ReasonTag.latElevated, []⟩]
    | _ => []
  | _, _ => []

/-- Hallucination region of `analyzeMessage`: runs only when `response` is
truthy and `confidenceScore` is defined. -/
def hallucBlock (response : Option String) (confidenceScore : Option ℚ) :
    List Finding :=
  if truthyStr response then
    match confidenceScore with
    | some conf =>
      match detectHallucination (response.getD "") conf with
      | HallucResult.lowConfidence =>
        [⟨AnomalyType.HALLUCINATION, Severity.high, ReasonTag.lowConfidence, []⟩]
      | HallucResult.contradictory =>
        [⟨AnomalyType.HALLUCINATION, Severity.high, ReasonTag.contradictory, []⟩]
      | HallucResult.ok => []
    | none => []
  else []

/-- Error-spike region of `analyzeMessage`: runs only when `errorCount` is
defined and positive. -/
def errorBlock (errorCount : Option ℚ) : List Finding :=
  match errorCount with
  | some e =>
    if e > 0 then
      if analyzeErrorPattern e then
        [⟨AnomalyType.ERROR_SPIKE, Severity.high, ReasonTag.errorRate, []⟩]
      else []
    else []
  | none => []

/-- Embedding of `analyzeMessage(message)`: runs the rule regions in
source order and returns the ordered `anomalies` list.  The five global
PII regexes' `lastIndex` state is threaded explicitly (`s` in, final
state out), mirroring the module-level mutability of `PII_PATTERNS`. -/
def analyzeMessage (P : Patterns) (m : Message) (s : PiiState) :
    List Finding × PiiState :=
  let pr := if truthyStr m.prompt then detectPII P s (m.prompt.getD "")
    else ([], s)
  let rr := if truthyStr m.response then detectPII P pr.2 (m.response.getD "")
    else ([], pr.2)
  (piiRequestBlock pr.1 ++ piiLeakBlock rr.1 ++ toxicBlock m.response ++
    injectionBlock P m.prompt ++ tokenBlock m.tokenCount m.avgTokenCount ++
    costBlock m.cost m.avgCost ++ latencyBlock m.latencyMs m.avgLatencyMs ++
    hallucBlock m.response m.confidenceScore ++ errorBlock m.errorCount,
    rr.2)

/-- Incident status: 'open' (at creation) or 'closed' (via `closeIncident`). -/
inductive Status
| opened
| closed
deriving DecidableEq, Repr

/-- Alert priority carried by a published alert event. -/
inductive Priority
| urgent
| high
deriving DecidableEq, Repr

/-- The fixed per-type impact descriptions of `getAlertImpact`, one
constructor per string of the `impacts` lookup table plus the generic
default ('Anomaly detected in LLM behavior'). -/
inductive ImpactMsg
| piiLeakage
| promptInjection
| toxicContent
| costAnomaly
| performanceDegradation
| hallucination
| errorSpike
| tokenAnomaly
| genericAnomaly
deriving DecidableEq, Repr

/-- Embedding of `getAlertImpact(alertType)`: table lookup with a generic default
(`PII_IN_REQUEST` has no entry and falls through to the default). -/
def getAlertImpact : AnomalyType → ImpactMsg
| AnomalyType.PII_LEAKAGE => ImpactMsg.piiLeakage
| AnomalyType.PROMPT_INJECTION => ImpactMsg.promptInjection
| AnomalyType.TOXIC_CONTENT => ImpactMsg.toxicContent
| AnomalyType.COST_ANOMALY => ImpactMsg.costAnomaly
| AnomalyType.PERFORMANCE_DEGRADATION => ImpactMsg.performanceDegradation
| AnomalyType.HALLUCINATION => ImpactMsg.hallucination
| AnomalyType.ERROR_SPIKE => ImpactMsg.errorSpike
| AnomalyType.TOKEN_ANOMALY => ImpactMsg.tokenAnomaly
| AnomalyType.PII_IN_REQUEST => ImpactMsg.genericAnomaly

/-- An incident record as pushed onto `metrics.incidents`: created with
`status: 'open'` and no `resolution` / `closedAt`; `closeIncident` sets
all three. Timestamps are modelled as natural-number milliseconds. -/
structure Incident where
  id : String
  type : AnomalyType
  severity : Severity
  requestId : Option String
  userId : Option String
  tag : ReasonTag
  timestamp : ℕ
  status : Status
  resolution : Option String
  closedAt : Option ℕ
deriving DecidableEq, Repr

/-- The argument of `publishAnomaly`: a finding spread together with the
response's `requestId` and `userId`. -/
structure AnomalyData where
  type : AnomalyType
  severity : Severity
  tag : ReasonTag
  detailedPII : List PIIHit
  requestId : Option String
  userId : Option String
deriving DecidableEq, Repr

/-- An event published to the transport, one constructor per producer
function; the topic each goes to is `KEvent.topic`. -/
inductive KEvent
| request (key : String)
| response (key : Option String)
| anomaly (type : AnomalyType) (severity : Severity)
| alert (alertType : AnomalyType) (severity : Severity)
    (priority : Priority) (impact : ImpactMsg)
deriving DecidableEq, Repr

/-- The four destination topics of the producer module. -/
inductive Topic
| llmRequests
| llmResponses
| llmAnomalies
| llmAlerts
deriving DecidableEq, Repr

/-- Topic each published event goes to (`TOPICS` in the producer). -/
def KEvent.topic : KEvent → Topic
| KEvent.request _ => Topic.llmRequests
| KEvent.response _ => Topic.llmResponses
| KEvent.anomaly _ _ => Topic.llmAnomalies
| KEvent.alert _ _ _ _ => Topic.llmAlerts

/-- Embedding of `['critical', 'high'].includes(anomalyData.severity)`. -/
def shouldAlert (s : Severity) : Bool :=
  s = Severity.critical || s = Severity.high

/-- The incident record `publishAnomaly` pushes when it escalates:
status 'open', no resolution, no `closedAt`. -/
def mkIncident (a : AnomalyData) (newId : String) (now : ℕ) : Incident :=
  { id := newId
    type := a.type
    severity := a.severity
    requestId := a.requestId
    userId := a.userId
    tag := a.tag
    timestamp := now
    status := Status.opened
    resolution := none
    closedAt := none }

/-- Embedding of `publishAnomaly(anomalyData)` over incident state `incs`,
with `newId` the generated uuid and `now` the creation time: escalating
severities publish ONE alert event and append a new open incident (and
return it); other severities publish one anomaly event and leave the
incidents alone.  Returns (published events, incidents, created). -/
def publishAnomaly (a : AnomalyData) (incs : List Incident)
    (newId : String) (now : ℕ) :
    List KEvent × List Incident × Option Incident :=
  if shouldAlert a.severity then
    let inc : Incident := mkIncident a newId now
    ([KEvent.alert a.type a.severity
        (if a.severity = Severity.critical then Priority.urgent
         else Priority.high)
        (getAlertImpact a.type)],
      incs ++ [inc], some inc)
  else
    ([KEvent.anomaly a.type a.severity], incs, none)

/-- A stored request payload (element of `metrics.requests`). -/
structure Request where
  requestId : String
  userId : String
  model : String
  prompt : Option String
  timestamp : ℕ
  tokenCount : Option ℚ
  cost : ℚ
deriving DecidableEq, Repr

/-- A stored response payload (element of `metrics.responses`). -/
structure RespPayload where
  requestId : Option String
  response : Option String
  model : String
  latencyMs : Option ℚ
  completionTokens : Option ℚ
  totalTokens : Option ℚ
  confidenceScore : Option ℚ
  timestamp : ℕ
deriving DecidableEq, Repr

/-- The module-level `metrics` store of the incident manager. -/
structure MetricsState where
  requests : List Request
  responses : List RespPayload
  incidents : List Incident
deriving DecidableEq, Repr

/-- The empty initial `metrics` store. -/
def emptyMetrics : MetricsState := ⟨[], [], []⟩

/-- The error thrown (and re-thrown by the handlers' catch blocks) when a
transport publish fails. -/
inductive PublishFailure
| publishFailed
deriving DecidableEq, Repr

/-- JavaScript `x || d` on an optional string (undefined or "" → d). -/
def jsOrStr (o : Option String) (d : String) : String :=
  if o.getD "" = "" then d else o.getD ""

/-- The inbound argument of `handleRequest` (`requestData`). -/
structure RequestData where
  userId : Option String
  model : Option String
  prompt : Option String
  tokenCount : Option ℚ
  cost : Option ℚ
deriving DecidableEq, Repr

/-- Embedding of `handleRequest(requestData)`: builds the payload with defaults, awaits
the publish (modelled by `publishOk`; on failure the catch logs and
RE-THROWS, so nothing is appended and the error reaches the caller), then
pushes the payload onto `metrics.requests` and returns `{requestId,
timestamp}`.  Output: (new store, published events, result). -/
def handleRequest (publishOk : Bool) (rd : RequestData) (newId : String)
    (now : ℕ) (st : MetricsState) :
    MetricsState × List KEvent × Except PublishFailure (String × ℕ) :=
  let payload : Request :=
    { requestId := newId
      userId := jsOrStr rd.userId "anonymous"
      model := jsOrStr rd.model "unknown"
      prompt := rd.prompt
      timestamp := now
      tokenCount := rd.tokenCount
      cost := rd.cost.getD 0 }
  if publishOk then
    ({ st with requests := st.requests ++ [payload] },
      [KEvent.request payload.userId], Except.ok (newId, now))
  else
    (st, [], Except.error PublishFailure.publishFailed)

/-- JavaScript truthiness of an optional number (defined and nonzero). -/
def truthyQ (o : Option ℚ) : Bool :=
  decide (o.getD 0 ≠ 0)

/-- The latency values `getAverageMetrics` averages over: stored responses
with a truthy `latencyMs`, in order. -/
def latenciesUsed (responses : List RespPayload) : List ℚ :=
  (responses.filter (fun r => truthyQ r.latencyMs)).map
    (fun r => r.latencyMs.getD 0)

/-- Embedding of `getAverageMetrics('responses').avgLatencyMs`: `none` when there are
no stored responses (the function returns `{}`), otherwise the mean of
the truthy latencies (0 when none are truthy). -/
def getAverageMetrics (responses : List RespPayload) : Option ℚ :=
  if responses.length > 0 then
    let lats := latenciesUsed responses
    some (if lats.length > 0 then lats.sum / lats.length else 0)
  else none

/-- The inbound argument of `handleResponse` (`responseData`). -/
structure ResponseData where
  requestId : Option String
  userId : Option String
  response : Option String
  model : Option String
  latencyMs : Option ℚ
  completionTokens : Option ℚ
  totalTokens : Option ℚ
  confidenceScore : Option ℚ
deriving DecidableEq, Repr

/-- The payload `handleResponse` pushes onto `metrics.responses`. -/
def mkRespPayload (rd : ResponseData) (now : ℕ) : RespPayload :=
  { requestId := rd.requestId
    response := rd.response
    model := jsOrStr rd.model "unknown"
    latencyMs := rd.latencyMs
    completionTokens := rd.completionTokens
    totalTokens := rd.totalTokens
    confidenceScore := rd.confidenceScore
    timestamp := now }

/-- The `analysisPayload` of `handleResponse`: the response data spread
with `getAverageMetrics('responses')` — computed AFTER the new payload has
been pushed, so the average runs over `st.responses ++ [payload]`.  The
inbound response carries no `prompt`/`tokenCount`/`cost` fields, so those
rules see `undefined`. -/
def analysisMessage (rd : ResponseData) (now : ℕ) (st : MetricsState) :
    Message :=
  { prompt := none
    response := rd.response
    tokenCount := none
    avgTokenCount := none
    cost := none
    avgCost := none
    latencyMs := rd.latencyMs
    avgLatencyMs := getAverageMetrics (st.responses ++ [mkRespPayload rd now])
    confidenceScore := rd.confidenceScore
    errorCount := none }

/-- The `for (const anomaly of anomalies) await publishAnomaly({...anomaly,
requestId, userId})` loop: threads the incident list, collects published
events; `mkId k` is the uuid generated for the k-th escalation. -/
def processAnomalies (mkId : ℕ → String) (now : ℕ)
    (requestId userId : Option String) :
    List Finding → ℕ → List Incident → List KEvent × List Incident
| [], _, incs => ([], incs)
| f :: rest, k, incs =>
  let a : AnomalyData :=
    { type := f.type
      severity := f.severity
      tag := f.tag
      detailedPII := f.detailedPII
      requestId := requestId
      userId := userId }
  let step := publishAnomaly a incs (mkId k) now
  let restOut := processAnomalies mkId now requestId userId rest (k + 1) step.2.1
  (step.1 ++ restOut.1, restOut.2)

/-- Embedding of `handleResponse(responseData)`: publish the response event (failure
re-throws, leaving the store untouched), push the payload, classify the
`analysisPayload`, publish/escalate every finding, return `{success,
anomalyCount}`.  Output: (store, regex state, events, result). -/
def handleResponse (publishOk : Bool) (P : Patterns) (mkId : ℕ → String)
    (rd : ResponseData) (now : ℕ) (st : MetricsState) (s : PiiState) :
    MetricsState × PiiState × List KEvent × Except PublishFailure ℕ :=
  if publishOk then
    let payload := mkRespPayload rd now
    let st1 : MetricsState := { st with responses := st.responses ++ [payload] }
    let cls := analyzeMessage P (analysisMessage rd now st) s
    let pub := processAnomalies mkId now rd.requestId rd.userId cls.1 0 st1.incidents
    ({ st1 with incidents := pub.2 }, cls.2,
      KEvent.response rd.requestId :: pub.1, Except.ok cls.1.length)
  else
    (st, s, [], Except.error PublishFailure.publishFailed)

/-- The mutation `closeIncident` applies to the found incident: status
'closed', the resolution text, and the close timestamp. -/
def closeUpd (i : Incident) (resolution : String) (now : ℕ) : Incident :=
  { i with
    status := Status.closed
    resolution := some resolution
    closedAt := some now }

/-- Embedding of `closeIncident(incidentId, resolution)` on the incident list: mutate
the FIRST incident with that id (set status 'closed', the resolution and
`closedAt`); unknown ids are a no-op returning null.  Returns the updated
list and the updated incident (or `none`). -/
def closeIncident (incidentId resolution : String) (now : ℕ) :
    List Incident → List Incident × Option Incident
| [] => ([], none)
| i :: rest =>
  if i.id = incidentId then
    let upd : Incident := closeUpd i resolution now
    (upd :: rest, some upd)
  else
    let r := closeIncident incidentId resolution now rest
    (i :: r.1, r.2)

/-- Embedding of `Math.round` for the (nonnegative) values in play: half rounds up. -/
def jsRound (q : ℚ) : ℤ := ⌊q + 1 / 2⌋

/-- Embedding of `calculateMTTR()`: mean age-at-close in minutes over closed incidents
with a `closedAt`, rounded; 0 when there are none. -/
def calculateMTTR (incs : List Incident) : ℤ :=
  let closedIncs := incs.filter
    (fun i => decide (i.status = Status.closed) && i.closedAt.isSome)
  if closedIncs.length = 0 then 0
  else
    let repairs := closedIncs.map
      (fun i => (((i.closedAt.getD 0 : ℤ) - (i.timestamp : ℤ) : ℚ)) / 60000)
    jsRound (repairs.sum / closedIncs.length)

/-- The metrics snapshot returned by `getSafetyMetrics`. -/
structure SafetyMetrics where
  totalRequests : ℕ
  totalIncidents : ℕ
  openIncidents : ℕ
  safetyScore : ℤ
  criticalIncidents : ℕ
  highIncidents : ℕ
  mttr : ℤ
deriving DecidableEq, Repr

/-- Embedding of `getSafetyMetrics()`: fresh snapshot; `safetyScore` is
`Math.round(totalRequests > 0 ? max(0, 100 - (totalIncidents /
totalRequests) * 100) : 100)`. -/
def getSafetyMetrics (st : MetricsState) : SafetyMetrics :=
  let totalRequests := st.requests.length
  let totalIncidents := st.incidents.length
  let score : ℚ :=
    if totalRequests > 0 then
      max 0 (100 - ((totalIncidents : ℚ) / (totalRequests : ℚ)) * 100)
    else 100
  { totalRequests := totalRequests
    totalIncidents := totalIncidents
    openIncidents :=
      (st.incidents.filter (fun i => decide (i.status = Status.opened))).length
    safetyScore := jsRound score
    criticalIncidents :=
      (st.incidents.filter (fun i => decide (i.severity = Severity.critical))).length
    highIncidents :=
      (st.incidents.filter (fun i => decide (i.severity = Severity.high))).length
    mttr := calculateMTTR st.incidents }

/-- The operations that touch the retained incident collection: creation
through `publishAnomaly`'s escalation path, and `closeIncident`.  (Reads
never mutate it.) -/
inductive IncidentOp
| create (a : AnomalyData) (newId : String) (now : ℕ)
| close (incidentId resolution : String) (now : ℕ)

/-- Effect of one operation on the incident list. -/
def stepIncidents (incs : List Incident) : IncidentOp → List Incident
| IncidentOp.create a newId now => (publishAnomaly a incs newId now).2.1
| IncidentOp.close incidentId resolution now =>
  (closeIncident incidentId resolution now incs).1

/-- The incident list after a sequence of operations from process start
(empty store). -/
def runIncidents (ops : List IncidentOp) : List Incident :=
  ops.foldl stepIncidents []

/-!  Concrete fixtures for evaluated statements. -/

/-- A pattern set under which no regex matches and no injection phrase
fires.  Used only for concrete evaluations whose messages carry no
prompt/response text, where the pattern set cannot influence the result. -/
def noPat : Patterns :=
  { email := ⟨fun _ => []⟩
    phone := ⟨fun _ => []⟩
    ssn := ⟨fun _ => []⟩
    card := ⟨fun _ => []⟩
    apikey := ⟨fun _ => []⟩
    injectionTest := fun _ => false }

/-- A message carrying only a latency and a baseline average latency. -/
def mLat (l a : ℚ) : Message :=
  { prompt := none
    response := none
    tokenCount := none
    avgTokenCount := none
    cost := none
    avgCost := none
    latencyMs := some l
    avgLatencyMs := some a
    confidenceScore := none
    errorCount := none }

/-- A message carrying only a token count and a baseline average. -/
def mTok (c a : ℚ) : Message :=
  { prompt := none
    response := none
    tokenCount := some c
    avgTokenCount := some a
    cost := none
    avgCost := none
    latencyMs := none
    avgLatencyMs := none
    confidenceScore := none
    errorCount := none }

/-- A message carrying only a cost and a baseline average cost. -/
def mCost (c a : ℚ) : Message :=
  { prompt := none
    response := none
    tokenCount := none
    avgTokenCount := none
    cost := some c
    avgCost := some a
    latencyMs := none
    avgLatencyMs := none
    confidenceScore := none
    errorCount := none }

/-- A concrete escalating (severity 'high') finding. -/
def demoToxicHigh : AnomalyData :=
  { type := AnomalyType.TOXIC_CONTENT
    severity := Severity.high
    tag := ReasonTag.toxic
    detailedPII := []
    requestId := some "r1"
    userId := some "u1" }

/-- A concrete non-escalating (severity 'medium') finding. -/
def demoTokenMedium : AnomalyData :=
  { type := AnomalyType.TOKEN_ANOMALY
    severity := Severity.medium
    tag := ReasonTag.tokenMedium
    detailedPII := []
    requestId := some "r1"
    userId := some "u1" }

/-- A concrete inbound request. -/
def demoRequestData : RequestData :=
  { userId := some "u1"
    model := some "gpt-x"
    prompt := some "hello"
    tokenCount := none
    cost := some 1 }

/-- A concrete stored request. -/
def demoRequest : Request :=
  { requestId := "r1"
    userId := "u1"
    model := "gpt-x"
    prompt := some "hello"
    timestamp := 0
    tokenCount := none
    cost := 1 }

/-- A concrete store with one request and one open incident. -/
def demoStore : MetricsState :=
  { requests := [demoRequest]
    responses := []
    incidents := [mkIncident demoToxicHigh "i1" 0] }

/-- The incident produced by running `demoOps`: created open at time 0,
closed at time 5 with resolution "done". -/
def demoClosedInc : Incident :=
  { id := "i1"
    type := AnomalyType.TOXIC_CONTENT
    severity := Severity.high
    requestId := some "r1"
    userId := some "u1"
    tag := ReasonTag.toxic
    timestamp := 0
    status := Status.closed
    resolution := some "done"
    closedAt := some 5 }

/-- A concrete operation sequence: one escalation, then its closure. -/
def demoOps : List IncidentOp :=
  [IncidentOp.create demoToxicHigh "i1" 0,
   IncidentOp.close "i1" "done" 5]

/-- A stored response with latency 100 ms. -/
def p100 : RespPayload :=
  { requestId := some "r0"
    response := some "ok"
    model := "m"
    latencyMs := some 100
    completionTokens := none
    totalTokens := none
    confidenceScore := none
    timestamp := 0 }

/-- A store holding exactly the one response `p100`. -/
def stOne : MetricsState :=
  { requests := []
    responses := [p100]
    incidents := [] }

/-- An inbound response whose latency is 0 ms (a falsy number). -/
def rdZero : ResponseData :=
  { requestId := some "r1"
    userId := none
    response := none
    model := none
    latencyMs := some 0
    completionTokens := none
    totalTokens := none
    confidenceScore := none }

/-- An inbound response whose latency is 100 ms. -/
def rdHundred : ResponseData :=
  { requestId := some "r1"
    userId := none
    response := none
    model := none
    latencyMs := some 100
    completionTokens := none
    totalTokens := none
    confidenceScore := none }

/-- For a message with no prompt and no response text, the classifier's
output is exactly the token, cost, latency and error rule regions (the
text-based rules are skipped), whatever the pattern set. -/
theorem analyzeMessage_no_text (P : Patterns) (m : Message) (s : PiiState)
    (hp : m.prompt = none) (hr : m.response = none) :
    (analyzeMessage P m s).1 =
      tokenBlock m.tokenCount m.avgTokenCount ++
        (costBlock m.cost m.avgCost ++
          (latencyBlock m.latencyMs m.avgLatencyMs ++
            errorBlock m.errorCount)) := by
  simp [analyzeMessage, hp, hr, truthyStr, piiRequestBlock, piiLeakBlock,
    toxicBlock, injectionBlock, hallucBlock]

/-!  C1: escalation creates an open incident iff severity is high or
critical, and the alert priority is urgent exactly for critical. -/

/-- C1.  For every finding handed to `publishAnomaly`, a new incident with
status 'open' is created and appended to the retained incidents if and
only if the finding's severity is 'high' or 'critical'; the alert event
published for an escalating finding carries priority 'urgent' when the
severity is 'critical' and 'high' otherwise. -/
theorem publishAnomaly_escalation_iff (a : AnomalyData) (incs : List Incident)
    (newId : String) (now : ℕ) :
    ((a.severity = Severity.high ∨ a.severity = Severity.critical) →
      (publishAnomaly a incs newId now).2.2 = some (mkIncident a newId now) ∧
      (publishAnomaly a incs newId now).2.1 = incs ++ [mkIncident a newId now] ∧
      (mkIncident a newId now).status = Status.opened ∧
      (publishAnomaly a incs newId now).1 =
        [KEvent.alert a.type a.severity
          (if a.severity = Severity.critical then Priority.urgent
           else Priority.high)
          (getAlertImpact a.type)]) ∧
    (¬(a.severity = Severity.high ∨ a.severity = Severity.critical) →
      (publishAnomaly a incs newId now).2.2 = none ∧
      (publishAnomaly a incs newId now).2.1 = incs) := by
  cases h : a.severity <;>
    simp [publishAnomaly, shouldAlert, h, mkIncident]

/-- Witness for C1 at a concrete escalating finding. -/
theorem publishAnomaly_escalation_iff_witness :
    (publishAnomaly demoToxicHigh [] "i1" 0).2.2 =
      some (mkIncident demoToxicHigh "i1" 0) ∧
    (publishAnomaly demoToxicHigh [] "i1" 0).2.1 =
      [] ++ [mkIncident demoToxicHigh "i1" 0] ∧
    (mkIncident demoToxicHigh "i1" 0).status = Status.opened ∧
    (publishAnomaly demoToxicHigh [] "i1" 0).1 =
      [KEvent.alert demoToxicHigh.type demoToxicHigh.severity
        (if demoToxicHigh.severity = Severity.critical then Priority.urgent
         else Priority.high)
        (getAlertImpact demoToxicHigh.type)] :=
  (publishAnomaly_escalation_iff demoToxicHigh [] "i1" 0).1 (Or.inl rfl)

/-!  C2: the source publishes an escalating finding ONLY to the alert
topic (early return), so the claim "every finding is published as an
anomaly event" fails for high/critical findings. -/

/-- C2 counterexample.  A severity-'high' finding publishes events, none
of which go to the anomaly topic — refuting the claim that every finding
is published as an anomaly event regardless of severity. -/
theorem escalating_finding_skips_anomaly_topic :
    (publishAnomaly demoToxicHigh [] "i1" 0).1.countP
      (fun e => decide (e.topic = Topic.llmAnomalies)) = 0 ∧
    (publishAnomaly demoToxicHigh [] "i1" 0).1 ≠ [] := by
  decide

/-- C2 amended.  Every finding is published to exactly one topic: an
escalating (high/critical) finding only as an alert event to the alert
topic, any other finding only as an anomaly event to the anomaly topic. -/
theorem publishAnomaly_single_topic (a : AnomalyData) (incs : List Incident)
    (newId : String) (now : ℕ) :
    ((a.severity = Severity.high ∨ a.severity = Severity.critical) →
      (publishAnomaly a incs newId now).1.map KEvent.topic =
        [Topic.llmAlerts]) ∧
    (¬(a.severity = Severity.high ∨ a.severity = Severity.critical) →
      (publishAnomaly a incs newId now).1.map KEvent.topic =
        [Topic.llmAnomalies]) := by
  cases h : a.severity <;>
    simp [publishAnomaly, shouldAlert, h, KEvent.topic]

/-- Witness for C2's amended theorem at a concrete escalating finding and
a concrete non-escalating one. -/
theorem publishAnomaly_single_topic_witness :
    (publishAnomaly demoToxicHigh [] "i1" 0).1.map KEvent.topic =
      [Topic.llmAlerts] ∧
    (publishAnomaly demoTokenMedium [] "i2" 0).1.map KEvent.topic =
      [Topic.llmAnomalies] :=
  ⟨(publishAnomaly_single_topic demoToxicHigh [] "i1" 0).1 (Or.inl rfl),
   (publishAnomaly_single_topic demoTokenMedium [] "i2" 0).2 (by decide)⟩

/-!  C4: with a 1000 ms baseline, the code compares the relative INCREASE
`(lat - avg) / avg` with 2.5 and 1.5, so 3500 ms (increase 2.5) lands in
the 'medium' tier and 1600 ms (increase 0.6) produces nothing. -/

/-- C4 counterexample.  With baseline 1000 ms the claim says 3500 ms
yields a 'high' `PERFORMANCE_DEGRADATION` finding and 1600 ms a 'medium'
one; the code yields 'medium' for 3500 ms and no finding for 1600 ms. -/
theorem latency_3500_medium_1600_none :
    (analyzeMessage noPat (mLat 3500 1000) piiZero).1 =
      [⟨AnomalyType.PERFORMANCE_DEGRADATION, Severity.medium,
        ReasonTag.latElevated, []⟩] ∧
    (analyzeMessage noPat (mLat 1600 1000) piiZero).1 = [] := by
  have h35 : analyzeLatencyAnomaly 3500 1000 = LatResult.elevated := by
    unfold analyzeLatencyAnomaly
    norm_num
  have h16 : analyzeLatencyAnomaly 1600 1000 = LatResult.ok := by
    unfold analyzeLatencyAnomaly
    norm_num
  constructor
  · rw [analyzeMessage_no_text noPat _ piiZero rfl rfl]
    simp [mLat, tokenBlock, costBlock, errorBlock, latencyBlock, h35]
  · rw [analyzeMessage_no_text noPat _ piiZero rfl rfl]
    simp [mLat, tokenBlock, costBlock, errorBlock, latencyBlock, h16]

/-- C4 amended.  With a baseline average latency of 1000 ms, classifying
3500 ms yields a `PERFORMANCE_DEGRADATION` finding of severity 'medium'
(relative increase 2.5, not strictly above the 2.5 tier), 1600 ms yields
no latency finding (increase 0.6 is not above 1.5), and 1200 ms yields no
latency finding. -/
theorem latency_findings_at_1000_baseline (P : Patterns) :
    (analyzeMessage P (mLat 3500 1000) piiZero).1 =
      [⟨AnomalyType.PERFORMANCE_DEGRADATION, Severity.medium,
        ReasonTag.latElevated, []⟩] ∧
    (analyzeMessage P (mLat 1600 1000) piiZero).1 = [] ∧
    (analyzeMessage P (mLat 1200 1000) piiZero).1 = [] := by
  have h35 : analyzeLatencyAnomaly 3500 1000 = LatResult.elevated := by
    unfold analyzeLatencyAnomaly
    norm_num
  have h16 : analyzeLatencyAnomaly 1600 1000 = LatResult.ok := by
    unfold analyzeLatencyAnomaly
    norm_num
  have h12 : analyzeLatencyAnomaly 1200 1000 = LatResult.ok := by
    unfold analyzeLatencyAnomaly
    norm_num
  refine ⟨?_, ?_, ?_⟩ <;> rw [analyzeMessage_no_text P _ piiZero rfl rfl]
  · simp [mLat, tokenBlock, costBlock, errorBlock, latencyBlock, h35]
  · simp [mLat, tokenBlock, costBlock, errorBlock, latencyBlock, h16]
  · simp [mLat, tokenBlock, costBlock, errorBlock, latencyBlock, h12]

/-!  C5: the `> 2.0` tier of `analyzeTokenUsage` returns no severity
field, and `analyzeMessage` defaults the finding's severity to 'medium',
so the high tier is reported at 'medium' severity. -/

/-- C5.  At `tokenCount = 350` against `avgTokenCount = 100` (relative
increase 2.5 > 2.0) the code produces the `TOKEN_ANOMALY` finding of the
high-usage tier with severity 'medium', because the high-usage return of
`analyzeTokenUsage` carries no severity and `analyzeMessage` falls back
to 'medium'. -/
theorem token_high_tier_severity_is_medium (P : Patterns) :
    (analyzeMessage P (mTok 350 100) piiZero).1 =
      [⟨AnomalyType.TOKEN_ANOMALY, Severity.medium, ReasonTag.tokenHigh, []⟩] := by
  have ht : analyzeTokenUsage 350 100 = TokenResult.highUsage := by
    unfold analyzeTokenUsage
    norm_num
  rw [analyzeMessage_no_text P _ piiZero rfl rfl]
  simp [mTok, tokenBlock, costBlock, errorBlock, latencyBlock, ht]

/-!  C6: `analyzeCostAnomaly` checks `!avgCost` BEFORE the absolute
ceiling, so a zero baseline suppresses even `cost > 50`. -/

/-- C6 counterexample.  A cost of 100 (far above the 50 ceiling) with a
zero baseline average yields NO cost finding, refuting the claim that the
absolute-ceiling trigger fires independently of the baseline value. -/
theorem cost_over_ceiling_zero_baseline_no_finding :
    (analyzeMessage noPat (mCost 100 0) piiZero).1 = [] ∧ (100 : ℚ) > 50 :=
  ⟨rfl, by norm_num⟩

/-- C6 amended.  For a defined cost and a defined NON-ZERO baseline
average, a `COST_ANOMALY` finding of severity 'high' is produced when the
cost exceeds the 50-unit ceiling, otherwise when the relative increase
exceeds 3.0, and not otherwise; a zero (or undefined) baseline suppresses
the rule entirely, including the absolute ceiling. -/
theorem cost_anomaly_needs_nonzero_baseline (P : Patterns) (c a : ℚ)
    (h : a ≠ 0) :
    (analyzeMessage P (mCost c a) piiZero).1 =
      (if c > 50 then
        [⟨AnomalyType.COST_ANOMALY, Severity.high, ReasonTag.costThreshold, []⟩]
      else if (c - a) / a > 3 then
        [⟨AnomalyType.COST_ANOMALY, Severity.high, ReasonTag.costSpike, []⟩]
      else []) ∧
    (analyzeMessage P (mCost c 0) piiZero).1 = [] := by
  constructor
  · have e1 : (analyzeMessage P (mCost c a) piiZero).1 =
        ((costBlock (some c) (some a) ++ []) ++ []) ++ [] := rfl
    rw [e1, List.append_nil, List.append_nil, List.append_nil]
    simp only [costBlock, analyzeCostAnomaly, if_neg h]
    split_ifs <;> rfl
  · rfl

/-- Witness for C6's amended theorem: cost 100 against baseline 1. -/
theorem cost_anomaly_needs_nonzero_baseline_witness :
    (analyzeMessage noPat (mCost 100 1) piiZero).1 =
      [⟨AnomalyType.COST_ANOMALY, Severity.high, ReasonTag.costThreshold, []⟩] := by
  have h := (cost_anomaly_needs_nonzero_baseline noPat 100 1 (by norm_num)).1
  rw [h]
  norm_num

/-!  C7: the safety score formula. -/

/-- C7.  `getSafetyMetrics` returns `safetyScore = Math.round(max(0, 100 -
(totalIncidents / totalRequests) * 100))` whenever there is at least one
request, and 100 when there are no requests. -/
theorem getSafetyMetrics_score (st : MetricsState) :
    (st.requests.length = 0 → (getSafetyMetrics st).safetyScore = 100) ∧
    (0 < st.requests.length →
      (getSafetyMetrics st).safetyScore =
        jsRound (max 0 (100 -
          ((st.incidents.length : ℚ) / (st.requests.length : ℚ)) * 100))) := by
  constructor
  · intro h
    simp only [getSafetyMetrics, h]
    norm_num [jsRound]
  · intro h
    simp only [getSafetyMetrics, if_pos h]

/-- Witness for C7 at the empty store and at a one-request store. -/
theorem getSafetyMetrics_score_witness :
    (getSafetyMetrics emptyMetrics).safetyScore = 100 ∧
    (getSafetyMetrics demoStore).safetyScore =
      jsRound (max 0 (100 -
        ((demoStore.incidents.length : ℚ) / (demoStore.requests.length : ℚ)) * 100)) :=
  ⟨(getSafetyMetrics_score emptyMetrics).1 rfl,
   (getSafetyMetrics_score demoStore).2 (by decide)⟩

/-!  C8: `handleRequest`'s catch block logs the publish failure and
RE-THROWS it, so a failed publish fails the whole call; the request is
pushed only after the publish, so the store is unchanged. -/

/-- C8 counterexample.  When the request-event publish fails, the call
returns the error to the caller — refuting the claim that the ingest
still succeeds from the caller's perspective. -/
theorem handleRequest_publish_failure_rethrows :
    (handleRequest false demoRequestData "r1" 0 emptyMetrics).2.2 =
      Except.error PublishFailure.publishFailed :=
  rfl

/-- C8 amended.  If publishing the request event fails, `handleRequest`
fails from the caller's perspective (the publish error propagates out of
the catch block), while the retained store is unaffected (the request is
appended only after a successful publish) and no event is recorded. -/
theorem handleRequest_publish_failure (rd : RequestData) (newId : String)
    (now : ℕ) (st : MetricsState) :
    handleRequest false rd newId now st =
      (st, [], Except.error PublishFailure.publishFailed) :=
  rfl

/-!  C3: the classifier is deterministic across invocations.  The only
mutable state it touches is the `lastIndex` of the five module-level `/g`
PII regexes; every `detectPII` branch either fails its `test` (which
resets `lastIndex` to 0) or follows the successful `test` with a global
`match` (which also leaves `lastIndex` at 0), so each invocation restores
the initial state and repeated runs agree. -/

/-- Each PII pattern branch leaves its regex's `lastIndex` at 0. -/
theorem piiBranch_snd (r : GRegex) (lastIndex : ℕ) (t : String)
    (cat : PIICat) : (piiBranch r lastIndex t cat).2 = 0 := by
  rcases h : (r.matchesOf t).find? (fun m => decide (lastIndex ≤ m.1)) with _ | m <;>
    simp [piiBranch, testG, h]

/-- Running `detectPII` from the initial regex state restores it. -/
theorem detectPII_snd_zero (P : Patterns) (t : String) :
    (detectPII P piiZero t).2 = piiZero := by
  unfold detectPII
  split
  · rfl
  · simp [piiBranch_snd, piiZero]

/-- Classification from the initial regex state restores it. -/
theorem analyzeMessage_snd_zero (P : Patterns) (m : Message) :
    (analyzeMessage P m piiZero).2 = piiZero := by
  by_cases h1 : truthyStr m.prompt <;> by_cases h2 : truthyStr m.response <;>
    simp [analyzeMessage, h1, h2, detectPII_snd_zero]

/-- C3.  The classifier is deterministic and effectively side-effect-free:
a run of `analyzeMessage` from the module's initial regex state restores
that state, so a second invocation on the same message (and hence on the
same event and baseline) produces the same ordered list of findings. -/
theorem analyzeMessage_deterministic (P : Patterns) (m : Message) :
    (analyzeMessage P m piiZero).2 = piiZero ∧
    (analyzeMessage P m (analyzeMessage P m piiZero).2).1 =
      (analyzeMessage P m piiZero).1 := by
  refine ⟨analyzeMessage_snd_zero P m, ?_⟩
  rw [analyzeMessage_snd_zero P m]

/-!  C9: incident lifecycle invariant.  Incidents are created open with no
`closedAt`; `closeIncident` is the only mutation and sets status 'closed'
together with `closedAt`; no operation reopens an incident. -/

/-- Closing preserves the `closedAt`-iff-closed invariant. -/
theorem closeIncident_inv (cid res : String) (now : ℕ) :
    ∀ incs : List Incident,
      (∀ i ∈ incs, i.closedAt.isSome ↔ i.status = Status.closed) →
      ∀ i ∈ (closeIncident cid res now incs).1,
        i.closedAt.isSome ↔ i.status = Status.closed := by
  intro incs
  induction incs with
  | nil =>
    intro h i hi
    simp [closeIncident] at hi
  | cons a rest ih =>
    intro h i hi
    have ha := h a (List.mem_cons_self a rest)
    have hrest := fun j hj => h j (List.mem_cons_of_mem a hj)
    by_cases hid : a.id = cid
    · simp only [closeIncident, if_pos hid, List.mem_cons] at hi
      rcases hi with rfl | hi
      · simp [closeUpd]
      · exact hrest i hi
    · simp only [closeIncident, if_neg hid, List.mem_cons] at hi
      rcases hi with rfl | hi
      · exact ha
      · exact ih hrest i hi

/-- Escalation preserves the `closedAt`-iff-closed invariant: the new
incident is open with no `closedAt`. -/
theorem publishAnomaly_inv (a : AnomalyData) (newId : String) (now : ℕ)
    (incs : List Incident)
    (h : ∀ i ∈ incs, i.closedAt.isSome ↔ i.status = Status.closed) :
    ∀ i ∈ (publishAnomaly a incs newId now).2.1,
      i.closedAt.isSome ↔ i.status = Status.closed := by
  intro i hi
  by_cases hs : shouldAlert a.severity
  · rw [show (publishAnomaly a incs newId now).2.1 =
        incs ++ [mkIncident a newId now] from by simp [publishAnomaly, hs]] at hi
    rcases List.mem_append.mp hi with hi | hi
    · exact h i hi
    · have he : i = mkIncident a newId now := by simpa using hi
      subst he
      simp [mkIncident]
  · rw [show (publishAnomaly a incs newId now).2.1 = incs from by
        simp [publishAnomaly, hs]] at hi
    exact h i hi

/-- Any single operation preserves the invariant. -/
theorem stepIncidents_inv (incs : List Incident) (op : IncidentOp)
    (h : ∀ i ∈ incs, i.closedAt.isSome ↔ i.status = Status.closed) :
    ∀ i ∈ stepIncidents incs op,
      i.closedAt.isSome ↔ i.status = Status.closed := by
  cases op with
  | create a newId now => exact publishAnomaly_inv a newId now incs h
  | close cid res now => exact closeIncident_inv cid res now incs h

/-- The invariant holds after any operation sequence from process start. -/
theorem runIncidents_inv (ops : List IncidentOp) :
    ∀ i ∈ runIncidents ops,
      i.closedAt.isSome ↔ i.status = Status.closed := by
  have main : ∀ (l : List IncidentOp) (incs : List Incident),
      (∀ i ∈ incs, i.closedAt.isSome ↔ i.status = Status.closed) →
      ∀ i ∈ l.foldl stepIncidents incs,
        i.closedAt.isSome ↔ i.status = Status.closed := by
    intro l
    induction l with
    | nil => intro incs h; simpa using h
    | cons op rest ih =>
      intro incs h
      exact ih _ (stepIncidents_inv incs op h)
  exact main ops [] (by intro i hi; simp at hi)

/-- Closing keeps every position's incident id, and either leaves the
incident unchanged or closes it. -/
theorem closeIncident_get (cid res : String) (now : ℕ) :
    ∀ (incs : List Incident) (k : ℕ) (i : Incident),
      incs.get? k = some i →
      ∃ j, (closeIncident cid res now incs).1.get? k = some j ∧
        j.id = i.id ∧ (j = i ∨ j.status = Status.closed) := by
  intro incs
  induction incs with
  | nil =>
    intro k i hk
    simp at hk
  | cons a rest ih =>
    intro k i hk
    by_cases hid : a.id = cid
    · cases k with
      | zero =>
        have he : a = i := by simpa using hk
        subst he
        refine ⟨closeUpd a res now, ?_, rfl, Or.inr rfl⟩
        simp [closeIncident, if_pos hid]
      | succ k =>
        have hk2 : rest.get? k = some i := by simpa using hk
        exact ⟨i, by simpa [closeIncident, if_pos hid] using hk2, rfl, Or.inl rfl⟩
    · cases k with
      | zero =>
        have he : a = i := by simpa using hk
        subst he
        exact ⟨a, by simp [closeIncident, if_neg hid], rfl, Or.inl rfl⟩
      | succ k =>
        have hk2 : rest.get? k = some i := by simpa using hk
        rcases ih k i hk2 with ⟨j, hj, hjid, hjc⟩
        exact ⟨j, by simpa [closeIncident, if_neg hid] using hj, hjid, hjc⟩

/-- Escalation appends at the end and never touches existing positions. -/
theorem publishAnomaly_get (a : AnomalyData) (newId : String) (now : ℕ)
    (incs : List Incident) (k : ℕ) (i : Incident)
    (hk : incs.get? k = some i) :
    (publishAnomaly a incs newId now).2.1.get? k = some i := by
  by_cases hs : shouldAlert a.severity
  · rw [show (publishAnomaly a incs newId now).2.1 =
        incs ++ [mkIncident a newId now] from by simp [publishAnomaly, hs]]
    have hlt : k < incs.length := (List.get?_eq_some.mp hk).1
    rw [List.get?_append hlt]
    exact hk
  · rw [show (publishAnomaly a incs newId now).2.1 = incs from by
      simp [publishAnomaly, hs]]
    exact hk

/-- C9.  After every operation sequence on the retained incident
collection, `closedAt` is set if and only if the incident's status is
'closed'; and one further operation of either kind never un-closes an
incident: the incident at each position keeps its id and, once closed,
stays closed (status transitions only open → closed). -/
theorem incident_lifecycle_invariant (ops : List IncidentOp) :
    (∀ i ∈ runIncidents ops,
      i.closedAt.isSome ↔ i.status = Status.closed) ∧
    (∀ (op : IncidentOp) (k : ℕ) (i : Incident),
      (runIncidents ops).get? k = some i → i.status = Status.closed →
      ∃ j, (stepIncidents (runIncidents ops) op).get? k = some j ∧
        j.id = i.id ∧ j.status = Status.closed) := by
  refine ⟨runIncidents_inv ops, ?_⟩
  intro op k i hk hc
  cases op with
  | create a newId now =>
    exact ⟨i, publishAnomaly_get a newId now _ k i hk, rfl, hc⟩
  | close cid res now =>
    rcases closeIncident_get cid res now _ k i hk with ⟨j, hj, hjid, hjc⟩
    refine ⟨j, hj, hjid, ?_⟩
    rcases hjc with rfl | hcl
    · exact hc
    · exact hcl

/-- Witness for C9: a created-then-closed incident stays closed under a
further close operation, and satisfies the `closedAt` invariant. -/
theorem incident_lifecycle_invariant_witness :
    (demoClosedInc.closedAt.isSome ↔ demoClosedInc.status = Status.closed) ∧
    ∃ j, (stepIncidents (runIncidents demoOps)
        (IncidentOp.close "i1" "again" 9)).get? 0 = some j ∧
      j.id = demoClosedInc.id ∧ j.status = Status.closed :=
  ⟨(incident_lifecycle_invariant demoOps).1 demoClosedInc (by decide),
   (incident_lifecycle_invariant demoOps).2 (IncidentOp.close "i1" "again" 9)
     0 demoClosedInc (by decide) (by decide)⟩

/-!  C10: `handleResponse` pushes the payload before `getAverageMetrics`
runs, so the baseline average is computed over the post-append window.
The window's average, however, only includes latencies that are truthy,
so a zero latency is NOT part of the baseline that classifies it. -/

/-- Findings of the PII-in-request region have type `PII_IN_REQUEST`. -/
theorem type_of_piiRequestBlock {hits : List PIIHit} {f : Finding}
    (h : f ∈ piiRequestBlock hits) : f.type = AnomalyType.PII_IN_REQUEST := by
  unfold piiRequestBlock at h
  split at h
  · rw [List.mem_singleton.mp h]
  · simp at h

/-- Findings of the PII-leak region have type `PII_LEAKAGE`. -/
theorem type_of_piiLeakBlock {hits : List PIIHit} {f : Finding}
    (h : f ∈ piiLeakBlock hits) : f.type = AnomalyType.PII_LEAKAGE := by
  unfold piiLeakBlock at h
  split at h
  · rw [List.mem_singleton.mp h]
  · simp at h

/-- Findings of the toxicity region have type `TOXIC_CONTENT`. -/
theorem type_of_toxicBlock {r : Option String} {f : Finding}
    (h : f ∈ toxicBlock r) : f.type = AnomalyType.TOXIC_CONTENT := by
  unfold toxicBlock at h
  split at h
  · rw [List.mem_singleton.mp h]
  · simp at h

/-- Findings of the injection region have type `PROMPT_INJECTION`. -/
theorem type_of_injectionBlock {P : Patterns} {p : Option String}
    {f : Finding} (h : f ∈ injectionBlock P p) :
    f.type = AnomalyType.PROMPT_INJECTION := by
  unfold injectionBlock at h
  split at h
  · rw [List.mem_singleton.mp h]
  · simp at h

/-- Findings of the token region have type `TOKEN_ANOMALY`. -/
theorem type_of_tokenBlock {c a : Option ℚ} {f : Finding}
    (h : f ∈ tokenBlock c a) : f.type = AnomalyType.TOKEN_ANOMALY := by
  unfold tokenBlock at h
  split at h
  · split at h
    · rw [List.mem_singleton.mp h]
    · rw [List.mem_singleton.mp h]
    · simp at h
  · simp at h

/-- Findings of the cost region have type `COST_ANOMALY`. -/
theorem type_of_costBlock {c a : Option ℚ} {f : Finding}
    (h : f ∈ costBlock c a) : f.type = AnomalyType.COST_ANOMALY := by
  unfold costBlock at h
  split at h
  · split at h
    · rw [List.mem_singleton.mp h]
    · rw [List.mem_singleton.mp h]
    · simp at h
  · simp at h

/-- Findings of the hallucination region have type `HALLUCINATION`. -/
theorem type_of_hallucBlock {r : Option String} {c : Option ℚ} {f : Finding}
    (h : f ∈ hallucBlock r c) : f.type = AnomalyType.HALLUCINATION := by
  unfold hallucBlock at h
  split at h
  · split at h
    · split at h
      · rw [List.mem_singleton.mp h]
      · rw [List.mem_singleton.mp h]
      · simp at h
    · simp at h
  · simp at h

/-- Findings of the error region have type `ERROR_SPIKE`. -/
theorem type_of_errorBlock {e : Option ℚ} {f : Finding}
    (h : f ∈ errorBlock e) : f.type = AnomalyType.ERROR_SPIKE := by
  unfold errorBlock at h
  split at h
  · split at h
    · split at h
      · rw [List.mem_singleton.mp h]
      · simp at h
    · simp at h
  · simp at h

/-- A classifier finding with type `PERFORMANCE_DEGRADATION` comes from
the latency region. -/
theorem perf_mem_latencyBlock (P : Patterns) (m : Message) (s : PiiState)
    (f : Finding) (hf : f ∈ (analyzeMessage P m s).1)
    (hty : f.type = AnomalyType.PERFORMANCE_DEGRADATION) :
    f ∈ latencyBlock m.latencyMs m.avgLatencyMs := by
  simp only [analyzeMessage, List.mem_append] at hf
  rcases hf with ((((((((h | h) | h) | h) | h) | h) | h) | h) | h)
  · have := type_of_piiRequestBlock h; rw [hty] at this; simp at this
  · have := type_of_piiLeakBlock h; rw [hty] at this; simp at this
  · have := type_of_toxicBlock h; rw [hty] at this; simp at this
  · have := type_of_injectionBlock h; rw [hty] at this; simp at this
  · have := type_of_tokenBlock h; rw [hty] at this; simp at this
  · have := type_of_costBlock h; rw [hty] at this; simp at this
  · exact h
  · have := type_of_hallucBlock h; rw [hty] at this; simp at this
  · have := type_of_errorBlock h; rw [hty] at this; simp at this

/-- Against a baseline equal to the (nonzero) latency itself, the latency
rule can only produce the timeout finding: the relative increase is 0. -/
theorem latencyBlock_self_baseline {l : ℚ} (hl : l ≠ 0) (f : Finding)
    (hf : f ∈ latencyBlock (some l) (some l)) :
    f.tag = ReasonTag.latTimeout := by
  have hval : analyzeLatencyAnomaly l l =
      if l > 30000 then LatResult.timeout else LatResult.ok := by
    unfold analyzeLatencyAnomaly
    rw [if_neg hl, sub_self, zero_div,
      if_neg (by norm_num : ¬ ((0 : ℚ) > 5 / 2)),
      if_neg (by norm_num : ¬ ((0 : ℚ) > 3 / 2))]
  simp only [latencyBlock, hval] at hf
  by_cases ht : l > 30000
  · rw [if_pos ht] at hf
    simp only [List.mem_singleton] at hf
    rw [hf]
  · rw [if_neg ht] at hf
    simp at hf

/-- With a zero latency and zero baseline the latency rule is silent. -/
theorem latencyBlock_zero : latencyBlock (some 0) (some 0) = [] := by
  unfold latencyBlock analyzeLatencyAnomaly
  norm_num

/-- C10 counterexample.  A response with `latencyMs = 0` recorded after a
100 ms response is classified against an average of 100 ms that does NOT
include its own latency: truthiness filtering drops the 0 before the mean
is taken, refuting "the baseline average latency used to classify a
response always includes that response's own latency". -/
theorem baseline_excludes_zero_latency :
    rdZero.latencyMs = some 0 ∧
    latenciesUsed (stOne.responses ++ [mkRespPayload rdZero 7]) = [100] ∧
    ¬ ((0 : ℚ) ∈ latenciesUsed (stOne.responses ++ [mkRespPayload rdZero 7])) ∧
    (analysisMessage rdZero 7 stOne).avgLatencyMs = some 100 := by
  have hl : latenciesUsed (stOne.responses ++ [mkRespPayload rdZero 7]) =
      [100] := by
    simp [latenciesUsed, stOne, p100, rdZero, mkRespPayload, truthyQ]
  refine ⟨rfl, hl, ?_, ?_⟩
  · rw [hl]
    norm_num
  · show getAverageMetrics (stOne.responses ++ [mkRespPayload rdZero 7]) =
      some 100
    rw [getAverageMetrics, hl]
    norm_num [stOne, p100]

/-- C10 amended.  `handleResponse` appends the incoming response to the
retained collection before computing the baseline, so the average latency
used to classify it is taken over the post-append window and includes the
response's own latency whenever that latency is defined and nonzero
(truthiness filtering excludes zero/undefined latencies); in particular
the first recorded response is classified against a baseline equal to its
own latency and can only ever produce the absolute-timeout latency
finding, never a relative-increase one. -/
theorem handleResponse_baseline_postappend (P : Patterns) (mkId : ℕ → String)
    (rd : ResponseData) (now : ℕ) (st : MetricsState) (s : PiiState) :
    ((handleResponse true P mkId rd now st s).1.responses =
      st.responses ++ [mkRespPayload rd now]) ∧
    ((analysisMessage rd now st).avgLatencyMs =
      getAverageMetrics (st.responses ++ [mkRespPayload rd now])) ∧
    (∀ l : ℚ, rd.latencyMs = some l → l ≠ 0 →
      l ∈ latenciesUsed (st.responses ++ [mkRespPayload rd now])) ∧
    (st.responses = [] →
      ∀ f ∈ (analyzeMessage P (analysisMessage rd now st) s).1,
        f.type = AnomalyType.PERFORMANCE_DEGRADATION →
          f.tag = ReasonTag.latTimeout) := by
  refine ⟨rfl, rfl, ?_, ?_⟩
  · intro l hl hnz
    have hpay : (mkRespPayload rd now).latencyMs = some l := by
      simp [mkRespPayload, hl]
    simp [latenciesUsed, List.filter_append, hpay, truthyQ, hnz]
  · intro hst f hf hty
    have hmem := perf_mem_latencyBlock P _ s f hf hty
    have hlat : (analysisMessage rd now st).latencyMs = rd.latencyMs := rfl
    rcases hrd : rd.latencyMs with _ | l
    · rw [hlat, hrd] at hmem
      simp [latencyBlock] at hmem
    · have hpay : (mkRespPayload rd now).latencyMs = some l := by
        simp [mkRespPayload, hrd]
      by_cases hz : l = 0
      · subst hz
        have havg : (analysisMessage rd now st).avgLatencyMs = some 0 := by
          simp [analysisMessage, getAverageMetrics, latenciesUsed, hst,
            hpay, truthyQ]
        rw [hlat, hrd, havg, latencyBlock_zero] at hmem
        simp at hmem
      · have havg : (analysisMessage rd now st).avgLatencyMs = some l := by
          simp [analysisMessage, getAverageMetrics, latenciesUsed, hst,
            hpay, truthyQ, hz]
        rw [hlat, hrd, havg] at hmem
        exact latencyBlock_self_baseline hz f hmem

/-- Witness for C10's amended theorem: a first recorded response with a
nonzero latency has it in the baseline window, and its classification
yields no relative-increase latency finding. -/
theorem handleResponse_baseline_postappend_witness :
    ((100 : ℚ) ∈ latenciesUsed (emptyMetrics.responses ++
      [mkRespPayload rdHundred 3])) ∧
    (∀ f ∈ (analyzeMessage noPat (analysisMessage rdHundred 3 emptyMetrics)
        piiZero).1,
      f.type = AnomalyType.PERFORMANCE_DEGRADATION →
        f.tag = ReasonTag.latTimeout) :=
  ⟨(handleResponse_baseline_postappend noPat (fun _ => "i") rdHundred 3
      emptyMetrics piiZero).2.2.1 100 rfl (by norm_num),
   (handleResponse_baseline_postappend noPat (fun _ => "i") rdHundred 3
      emptyMetrics piiZero).2.2.2 rfl⟩

end SafetyCenter
